import Mathlib

/-!
Shallow embedding of `src/src/services/brevo.js` (`BrevoClient.createContact`),
the CRM contact-creation adapter, together with theorems settling the claims
about it.

Modelling conventions:
* JavaScript runtime values that the adapter inspects are embedded as `JSVal`
  (numbers as `Int`; the adapter performs no float arithmetic).  `emptyObj`
  stands for the fresh object literal created by the destructuring default
  `attributes = {}`; `obj tag` stands for any other (truthy) object.
* The nondeterministic environment — the behaviour of `fetch` and of
  `response.json()` — is a parameter of type `FetchOutcome`.  A rejected
  promise carries a `JsError` (an Error-like value with `name`, `message`,
  and its position in the `instanceof TypeError` / `instanceof SyntaxError`
  hierarchy).
* The body of the `try` block is embedded in `Except JsError`, so every
  operation that can throw in the source (the awaited `fetch`, the awaited
  `response.json()`, and the property access `responseData.id` when the
  parsed body is JSON `null`) throws in the embedding; the `catch` clause is
  the total handler `handleCatch`.
* `createContact` returns a `CallTrace`: the settled result of the returned
  promise, the single HTTP request issued by the one syntactic `fetch` call
  (or `none` when a precondition fails before the network call), and the
  list of `console.error` lines emitted (a multi-argument `console.error`
  call is embedded as its space-joined line, as `console` renders it).
-/

namespace Brevo

/-- JavaScript values, restricted to the shapes `createContact` inspects. -/
inductive JSVal where
  | undef
  | null
  | boolean (b : Bool)
  | num (n : Int)
  | str (s : String)
  | emptyObj
  | obj (tag : Nat)
deriving DecidableEq, Repr

/-- JavaScript truthiness of an embedded value. -/
def jsTruthy : JSVal → Bool
  | .undef => false
  | .null => false
  | .boolean b => b
  | .num n => n != 0
  | .str s => s != ""
  | .emptyObj => true
  | .obj _ => true

/-- Characters matched by the regular-expression class `\s` in JavaScript,
which is also the set removed by `String.prototype.trim`. -/
def jsSpace (c : Char) : Bool :=
  let n := c.toNat
  n == 0x9 || n == 0xa || n == 0xb || n == 0xc || n == 0xd || n == 0x20 ||
  n == 0xa0 || n == 0x1680 || (decide (0x2000 ≤ n) && decide (n ≤ 0x200a)) ||
  n == 0x2028 || n == 0x2029 || n == 0x202f || n == 0x205f || n == 0x3000 || n == 0xfeff

/-- JavaScript `String.prototype.trim`: strip `jsSpace` characters from both ends. -/
def jsTrim (s : String) : String :=
  String.mk (((s.toList.dropWhile jsSpace).reverse.dropWhile jsSpace).reverse)

/-- A character matched by the class `[^\s@]` of the email regular expression. -/
def atomChar (c : Char) : Bool := !jsSpace c && c != '@'

/-- Backtracking matcher for `[^\s@]+` followed by a continuation: consumes one
or more `atomChar`s and succeeds if the continuation accepts any remaining
suffix (this is exactly the search a regex engine performs for `+`). -/
def plusThen (k : List Char → Bool) : List Char → Bool
  | [] => false
  | c :: rest => atomChar c && (k rest || plusThen k rest)

/-- The test `/^[^\s@]+@[^\s@]+\.[^\s@]+$/.test s` from line 51 of the source:
an anchored match of atom-plus, `@`, atom-plus, `.`, atom-plus. -/
def emailRegexTest (s : String) : Bool :=
  plusThen (fun r1 =>
    match r1 with
    | '@' :: r2 =>
      plusThen (fun r3 =>
        match r3 with
        | '.' :: r4 => plusThen List.isEmpty r4
        | _ => false) r2
    | _ => false) s.toList

/-- An Error-like JavaScript value as the `catch` clause inspects it. -/
structure JsError where
  name : String
  message : String
  isTypeError : Bool
  isSyntaxError : Bool
deriving DecidableEq, Repr

/-- Decides whether `pat` occurs at the start of `hay`. -/
def charsStartWith : List Char → List Char → Bool
  | _, [] => true
  | [], _ :: _ => false
  | c :: cs, d :: ds => c == d && charsStartWith cs ds

/-- Decides whether `pat` occurs anywhere inside `hay`. -/
def charsInclude : List Char → List Char → Bool
  | [], pat => charsStartWith [] pat
  | c :: rest, pat => charsStartWith (c :: rest) pat || charsInclude rest pat

/-- JavaScript `String.prototype.includes`. -/
def strIncludes (s pat : String) : Bool := charsInclude s.toList pat.toList

/-- The parsed JSON response body, as far as the adapter consumes it: the
adapter only ever reads the property `id`.  `jnull` is the JSON value `null`
(whose property access throws a `TypeError`); `jobj id` is any other parsed
JSON value, with `id` the value of its `id` property (`undef` when the
property is absent or the value is a primitive or an array). -/
inductive ResponseData where
  | jnull
  | jobj (id : JSVal)
deriving DecidableEq, Repr

/-- The `TypeError` raised by `responseData.id` when `responseData` is `null`. -/
def nullPropError : JsError :=
  ⟨"TypeError", "Cannot read properties of null (reading id)", true, false⟩

/-- The property access `responseData.id`, which throws on JSON `null`. -/
def ResponseData.getId : ResponseData → Except JsError JSVal
  | .jnull => .error nullPropError
  | .jobj v => .ok v

deriving instance DecidableEq for Except

/-- Behaviour of the environment for the one `fetch` call: either the awaited
`fetch` rejects with an error, or it resolves to a response with a status
code, whose awaited `.json()` in turn either rejects or yields parsed data. -/
inductive FetchOutcome where
  | reject (e : JsError)
  | response (status : Nat) (json : Except JsError ResponseData)
deriving DecidableEq, Repr

/-- The value an adapter call resolves to: `success` carries `data.id`,
`data.email`, and the `data.duplicate` property (`none` when the source omits
the key, as it does on the 2xx path); `failure` carries `error`. -/
inductive AdapterResult where
  | success (id : JSVal) (email : String) (duplicate : Option Bool)
  | failure (error : String)
deriving DecidableEq, Repr

/-- JavaScript truthiness of the possibly-absent `data.duplicate` property. -/
def AdapterResult.dupFlag : AdapterResult → Bool
  | .success _ _ d => d.getD false
  | .failure _ => false

/-- The JSON request body built on lines 60-65: `firstName` and `lastName`
are present iff the corresponding input is truthy (the conditional spread
`...(firstName && { firstName })`); `attributes` is always present. -/
structure RequestBody where
  email : String
  firstName : Option JSVal
  lastName : Option JSVal
  attributes : JSVal
deriving DecidableEq, Repr

/-- The single outbound HTTP request of lines 71-79. -/
structure Request where
  url : String
  method : String
  headers : List (String × JSVal)
  body : RequestBody
deriving DecidableEq, Repr

/-- Observable outcome of one `createContact` call: the settled result of the
promise (`Except.error` would be an uncaught rejection), the request passed to
the one syntactic `fetch` call site (`none` if no network call was made), and
the `console.error` lines emitted. -/
structure CallTrace where
  result : Except JsError AdapterResult
  request : Option Request
  logs : List String
deriving DecidableEq, Repr

/-- The `errorMessages` lookup object of lines 109-116. -/
def errorMessages : List (Nat × String) :=
  [(400, "Bad request - validation error"),
   (401, "Invalid API key"),
   (403, "Insufficient API key permissions"),
   (429, "Rate limit exceeded"),
   (500, "Brevo server error"),
   (503, "Brevo service unavailable")]

/-- Line 118: `errorMessages[response.status] || ('API error: ' + response.status)`
(every table entry is a nonempty, hence truthy, string). -/
def statusMessage (status : Nat) : String :=
  match errorMessages.lookup status with
  | some m => m
  | none => "API error: " ++ toString status

/-- The `response.ok` property of the Fetch API: status in the range 200-299. -/
def respOk (status : Nat) : Bool :=
  decide (200 ≤ status) && decide (status ≤ 299)

/-- The `catch` clause of lines 126-159: classify the caught error and produce
the result together with the `console.error` line it emits. -/
def handleCatch (e : JsError) : AdapterResult × List String :=
  if e.name = "AbortError" then
    (.failure "Request timeout", ["Brevo API request timeout"])
  else if e.isTypeError && strIncludes e.message "fetch" then
    (.failure "Network error", ["Brevo API network error"])
  else if e.isSyntaxError then
    (.failure "Invalid API response format", ["Brevo API returned invalid JSON"])
  else
    (.failure "Unexpected error occurred", ["Brevo API unexpected error: " ++ e.message])

/-- Body of the `try` block from the `fetch` call onward (lines 71-124):
await the fetch, await `response.json()`, then interpret `response.ok`,
status 409, and the error table.  Throws (into `Except`) exactly where the
source can throw.  Also yields the `console.error` line of line 119. -/
def tryBlock (body : RequestBody) (outcome : FetchOutcome) :
    Except JsError (AdapterResult × List String) :=
  match outcome with
  | .reject e => .error e
  | .response status json =>
    match json with
    | .error e => .error e
    | .ok responseData =>
      if respOk status then
        match responseData.getId with
        | .error e => .error e
        | .ok idv => .ok (.success idv body.email none, [])
      else if status = 409 then
        match responseData.getId with
        | .error e => .error e
        | .ok idv =>
          .ok (.success (if jsTruthy idv then idv else .null) body.email (some true), [])
      else
        .ok (.failure (statusMessage status), ["Brevo API error: " ++ statusMessage status])

/-- The input of `createContact` after destructuring: each field holds the
property's value, `undef` when the property is absent. -/
structure Submission where
  email : JSVal
  firstName : JSVal
  lastName : JSVal
  attributes : JSVal
deriving DecidableEq, Repr

/-- Line 26: `typeof this.apiKey === 'string' && this.apiKey.trim() === ''`. -/
def keyIsEmptyStr : JSVal → Bool
  | .str k => jsTrim k == ""
  | _ => false

/-- The request body of lines 60-65: trimmed email; `firstName` / `lastName`
spread in only when truthy; `attributes` defaulted to `{}` by the
destructuring default (which fires exactly on `undefined`). -/
def mkBody (sub : Submission) (trimmedEmail : String) : RequestBody :=
  ⟨trimmedEmail,
   if jsTruthy sub.firstName then some sub.firstName else none,
   if jsTruthy sub.lastName then some sub.lastName else none,
   if sub.attributes = .undef then .emptyObj else sub.attributes⟩

/-- The fixed base URL of line 11. -/
def baseUrl : String := "https://api.brevo.com/v3"

/-- The request of lines 71-79: POST to `baseUrl ++ "/contacts"` with the
`api-key` and `content-type` headers and the JSON body. -/
def mkReq (apiKey : JSVal) (sub : Submission) (trimmedEmail : String) : Request :=
  ⟨baseUrl ++ "/contacts", "POST",
   [("api-key", apiKey), ("content-type", JSVal.str "application/json")],
   mkBody sub trimmedEmail⟩

/-- A validation short-circuit: a `Failure` result, no network call, no log. -/
def noCall (msg : String) : CallTrace := ⟨.ok (.failure msg), none, []⟩

/-- Run the `try`/`catch` of lines 67-160 for an already-built request:
a normal completion of the `try` block is returned as-is; a thrown error is
absorbed by the (total) `catch` clause.  Either way the one `fetch` call has
been made, so the trace records the request. -/
def dispatch (req : Request) (outcome : FetchOutcome) : CallTrace :=
  match tryBlock req.body outcome with
  | .ok rl => ⟨.ok rl.1, some req, rl.2⟩
  | .error err => ⟨.ok (handleCatch err).1, some req, (handleCatch err).2⟩

/-- `BrevoClient.createContact` (lines 23-161): the credential checks of
lines 26-38, the email checks of lines 41-57, then the network call and the
`try`/`catch`.  `apiKey` is the constructor-supplied credential. -/
def createContact (apiKey : JSVal) (sub : Submission) (outcome : FetchOutcome) : CallTrace :=
  if keyIsEmptyStr apiKey then noCall "Brevo API key cannot be empty"
  else if !jsTruthy apiKey then
    noCall "Brevo API key is not configured. Set VITE_BREVO_API_KEY environment variable."
  else
    match sub.email with
    | .str e =>
      if e = "" then noCall "Email is required and must be a non-empty string"
      else if !emailRegexTest (jsTrim e) then noCall "Invalid email format"
      else dispatch (mkReq apiKey sub (jsTrim e)) outcome
    | _ => noCall "Email is required and must be a non-empty string"

/-! Helper lemmas about the embedded operations. -/

theorem jsTrim_empty : jsTrim "" = "" := rfl

theorem respOk_true {st : Nat} (h1 : 200 ≤ st) (h2 : st ≤ 299) : respOk st = true := by
  simp only [respOk, Bool.and_eq_true, decide_eq_true_eq]
  exact ⟨h1, h2⟩

theorem respOk_false {st : Nat} (h : ¬ (200 ≤ st ∧ st ≤ 299)) : respOk st = false := by
  cases hb : respOk st with
  | false => rfl
  | true =>
    exfalso
    apply h
    simpa only [respOk, Bool.and_eq_true, decide_eq_true_eq] using hb

/-- The lookup-plus-fallback of line 118, written out as the table the spec
states (the spec-side shape, for comparison with the source-side lookup). -/
theorem statusMessage_eq (st : Nat) :
    statusMessage st =
      if st = 400 then "Bad request - validation error"
      else if st = 401 then "Invalid API key"
      else if st = 403 then "Insufficient API key permissions"
      else if st = 429 then "Rate limit exceeded"
      else if st = 500 then "Brevo server error"
      else if st = 503 then "Brevo service unavailable"
      else "API error: " ++ toString st := by
  by_cases h1 : st = 400
  · subst h1; rfl
  by_cases h2 : st = 401
  · subst h2; rfl
  by_cases h3 : st = 403
  · subst h3; rfl
  by_cases h4 : st = 429
  · subst h4; rfl
  by_cases h5 : st = 500
  · subst h5; rfl
  by_cases h6 : st = 503
  · subst h6; rfl
  have b1 : (st == 400) = false := by simpa using h1
  have b2 : (st == 401) = false := by simpa using h2
  have b3 : (st == 403) = false := by simpa using h3
  have b4 : (st == 429) = false := by simpa using h4
  have b5 : (st == 500) = false := by simpa using h5
  have b6 : (st == 503) = false := by simpa using h6
  simp [statusMessage, errorMessages, List.lookup, b1, b2, b3, b4, b5, b6, h1, h2, h3, h4, h5, h6]

theorem apiError_head (t : String) : ("API error: " ++ t).data.head? = some 'A' := by
  cases t with
  | mk l => rfl

theorem apiError_ne (t m : String) (hm : m.data.head? ≠ some 'A') : ("API error: " ++ t) ≠ m :=
  fun h => hm (h ▸ apiError_head t)

theorem statusMessage_ne_keyEmpty (st : Nat) :
    statusMessage st ≠ "Brevo API key cannot be empty" := by
  rw [statusMessage_eq]
  repeat' split
  case isTrue => decide
  all_goals first
    | decide
    | exact apiError_ne (toString st) "Brevo API key cannot be empty" (by decide)

theorem handleCatch_ne_keyEmpty (e : JsError) :
    (handleCatch e).1 ≠ AdapterResult.failure "Brevo API key cannot be empty" := by
  unfold handleCatch
  repeat' split
  all_goals simp

/-- Once the preconditions pass, `createContact` is the dispatched network
call on the trimmed email. -/
theorem createContact_valid_eq (k : JSVal) (sub : Submission) (outcome : FetchOutcome) (s : String)
    (hk1 : keyIsEmptyStr k = false) (hk2 : jsTruthy k = true)
    (hs : sub.email = .str s) (hne : s ≠ "") (hre : emailRegexTest (jsTrim s) = true) :
    createContact k sub outcome = dispatch (mkReq k sub (jsTrim s)) outcome := by
  unfold createContact
  rw [hs]
  simp [hk1, hk2, hne, hre]

theorem dispatch_reject (req : Request) (e : JsError) :
    dispatch req (.reject e) = ⟨.ok (handleCatch e).1, some req, (handleCatch e).2⟩ := rfl

theorem dispatch_badjson (req : Request) (st : Nat) (e : JsError) :
    dispatch req (.response st (.error e)) =
      ⟨.ok (handleCatch e).1, some req, (handleCatch e).2⟩ := rfl

theorem dispatch_2xx (req : Request) (st : Nat) (idv : JSVal) (h : respOk st = true) :
    dispatch req (.response st (.ok (.jobj idv))) =
      ⟨.ok (.success idv req.body.email none), some req, []⟩ := by
  unfold dispatch tryBlock
  simp [h, ResponseData.getId]

theorem dispatch_409 (req : Request) (idv : JSVal) :
    dispatch req (.response 409 (.ok (.jobj idv))) =
      ⟨.ok (.success (if jsTruthy idv then idv else .null) req.body.email (some true)),
       some req, []⟩ := rfl

theorem dispatch_status (req : Request) (st : Nat) (rd : ResponseData)
    (h : respOk st = false) (h409 : st ≠ 409) :
    dispatch req (.response st (.ok rd)) =
      ⟨.ok (.failure (statusMessage st)), some req,
       ["Brevo API error: " ++ statusMessage st]⟩ := by
  unfold dispatch tryBlock
  simp [h, h409]

theorem dispatch_request (req : Request) (outcome : FetchOutcome) :
    (dispatch req outcome).request = some req := by
  unfold dispatch
  cases tryBlock req.body outcome <;> rfl

theorem dispatch_logs_req_independent (r1 r2 : Request) (h : r1.body = r2.body)
    (outcome : FetchOutcome) :
    (dispatch r1 outcome).logs = (dispatch r2 outcome).logs := by
  unfold dispatch
  rw [h]
  cases tryBlock r2.body outcome <;> rfl

/-- Every run of `createContact` either short-circuits on a precondition with
no network call, or performs the dispatched network call. -/
theorem createContact_cases (k : JSVal) (sub : Submission) (outcome : FetchOutcome) :
    (∃ msg, createContact k sub outcome = noCall msg) ∨
    (∃ req, createContact k sub outcome = dispatch req outcome) := by
  unfold createContact
  repeat' split
  all_goals first
    | exact Or.inl ⟨_, rfl⟩
    | exact Or.inr ⟨_, rfl⟩

theorem noCall_fields (msg : String) (h : CallTrace) (he : h = noCall msg) :
    h.result = .ok (.failure msg) ∧ h.request = none := by
  rw [he]; exact ⟨rfl, rfl⟩

/-! Theorems settling the claims. -/

/-- C1: Totality / never-throws.  For every input submission (any combination
of present, absent, non-string or malformed fields), every credential, and
every behaviour of the underlying HTTP call (any response status, any
rejection of the fetch or of the body parse), `createContact` resolves — its
promise settles with `Except.ok` carrying a value of the two-variant
`AdapterResult` type, never with an uncaught rejection. -/
theorem createContact_never_throws (k : JSVal) (sub : Submission) (outcome : FetchOutcome) :
    ∃ r : AdapterResult, (createContact k sub outcome).result = Except.ok r := by
  rcases createContact_cases k sub outcome with ⟨msg, h⟩ | ⟨req, h⟩
  · exact ⟨.failure msg, by rw [h]; rfl⟩
  · rw [h]
    unfold dispatch
    cases tryBlock req.body outcome with
    | ok rl => exact ⟨rl.1, rfl⟩
    | error e => exact ⟨(handleCatch e).1, rfl⟩

/-- C2: Email validation gate.  With a well-configured credential: a
submission whose email is missing, not a string, or the empty string gets
`Failure "Email is required and must be a non-empty string"` with no network
call; a nonempty-string email whose trimmed value fails the embedded
`local@domain.tld` regular-expression test gets `Failure "Invalid email
format"` with no network call. -/
theorem createContact_email_validation_gate (k : JSVal) (sub : Submission) (outcome : FetchOutcome)
    (hk1 : keyIsEmptyStr k = false) (hk2 : jsTruthy k = true) :
    ((sub.email = .undef ∨ (∀ t : String, sub.email ≠ .str t) ∨ sub.email = .str "") →
      (createContact k sub outcome).result =
          .ok (.failure "Email is required and must be a non-empty string") ∧
        (createContact k sub outcome).request = none) ∧
    (∀ s : String, sub.email = .str s → s ≠ "" → emailRegexTest (jsTrim s) = false →
      (createContact k sub outcome).result = .ok (.failure "Invalid email format") ∧
        (createContact k sub outcome).request = none) := by
  constructor
  · intro h
    apply noCall_fields
    cases he : sub.email with
    | str s =>
      have hs0 : s = "" := by
        rcases h with h | h | h
        · rw [he] at h; cases h
        · exact absurd he (h s)
        · rw [he] at h; cases h; rfl
      subst hs0
      unfold createContact
      rw [he]
      simp [hk1, hk2]
    | undef => unfold createContact; rw [he]; simp [hk1, hk2]
    | null => unfold createContact; rw [he]; simp [hk1, hk2]
    | boolean b => unfold createContact; rw [he]; simp [hk1, hk2]
    | num n => unfold createContact; rw [he]; simp [hk1, hk2]
    | emptyObj => unfold createContact; rw [he]; simp [hk1, hk2]
    | obj tg => unfold createContact; rw [he]; simp [hk1, hk2]
  · intro s hs hne hre
    apply noCall_fields
    unfold createContact
    rw [hs]
    simp [hk1, hk2, hne, hre]

/-- Witness for C2: a well-formed key with the spec's example email
`"notanemail"` yields `Failure "Invalid email format"` and no network call. -/
theorem createContact_email_validation_gate_witness :
    (createContact (.str "test-api-key") ⟨.str "notanemail", .undef, .undef, .undef⟩
        (.response 200 (.ok (.jobj (.num 1))))).result =
        .ok (.failure "Invalid email format") ∧
      (createContact (.str "test-api-key") ⟨.str "notanemail", .undef, .undef, .undef⟩
        (.response 200 (.ok (.jobj (.num 1))))).request = none :=
  (createContact_email_validation_gate (.str "test-api-key")
      ⟨.str "notanemail", .undef, .undef, .undef⟩
      (.response 200 (.ok (.jobj (.num 1)))) (by decide) (by decide)).2
    "notanemail" rfl (by decide) (by decide)

/-- C3: 2xx success shape.  With all preconditions passing, a 2xx response
whose body is `{id: N}` yields `Success` carrying that id and the trimmed
input email; the `duplicate` property is omitted by the source on this path,
so its JavaScript truthiness is `false`. -/
theorem createContact_success_2xx (k : JSVal) (sub : Submission) (s : String) (n : Int)
    (status : Nat) (hk1 : keyIsEmptyStr k = false) (hk2 : jsTruthy k = true)
    (hs : sub.email = .str s) (hne : s ≠ "") (hre : emailRegexTest (jsTrim s) = true)
    (h2xx : 200 ≤ status ∧ status ≤ 299) :
    (createContact k sub (.response status (.ok (.jobj (.num n))))).result =
        .ok (.success (.num n) (jsTrim s) none) ∧
      AdapterResult.dupFlag (.success (.num n) (jsTrim s) none) = false := by
  constructor
  · rw [createContact_valid_eq k sub _ s hk1 hk2 hs hne hre,
        dispatch_2xx _ status (.num n) (respOk_true h2xx.1 h2xx.2)]
    rfl
  · rfl

/-- Witness for C3: `simple@example.com` with a mocked 200 `{id: 123}`. -/
theorem createContact_success_2xx_witness :
    (createContact (.str "test-api-key") ⟨.str "simple@example.com", .undef, .undef, .undef⟩
        (.response 200 (.ok (.jobj (.num 123))))).result =
        .ok (.success (.num 123) (jsTrim "simple@example.com") none) ∧
      AdapterResult.dupFlag (.success (.num 123) (jsTrim "simple@example.com") none) = false :=
  createContact_success_2xx (.str "test-api-key")
    ⟨.str "simple@example.com", .undef, .undef, .undef⟩ "simple@example.com" 123 200
    (by decide) (by decide) rfl (by decide) (by decide) (by decide)

/-- C4 counterexample: a mocked 409 whose body is `{id: 0}` — an id that is
present, not absent — yields `Success` carrying `id: null`, because line 101
of the source computes `responseData.id || null`, a truthiness fallback, not
an absence check.  So "id from the response body, or null if absent" fails at
this input. -/
theorem createContact_409_falsy_id_counterexample :
    (createContact (.str "test-api-key") ⟨.str "a@b.c", .undef, .undef, .undef⟩
        (.response 409 (.ok (.jobj (.num 0))))).result =
        .ok (.success .null "a@b.c" (some true)) ∧
      ResponseData.getId (.jobj (.num 0)) = .ok (.num 0) ∧
      JSVal.num 0 ≠ JSVal.null := by
  refine ⟨by decide, rfl, by decide⟩

/-- C4 (amended): with all preconditions passing, whenever the HTTP call
returns status 409 and the body parses to a non-null JSON value, the result
is `Success` with the trimmed email, `duplicate: true`, and `id` equal to the
body's id when that id is truthy, `null` otherwise (absent or falsy) — never
a `Failure`. -/
theorem createContact_409_duplicate_success (k : JSVal) (sub : Submission) (s : String)
    (idv : JSVal) (hk1 : keyIsEmptyStr k = false) (hk2 : jsTruthy k = true)
    (hs : sub.email = .str s) (hne : s ≠ "") (hre : emailRegexTest (jsTrim s) = true) :
    (createContact k sub (.response 409 (.ok (.jobj idv)))).result =
      .ok (.success (if jsTruthy idv then idv else .null) (jsTrim s) (some true)) := by
  rw [createContact_valid_eq k sub _ s hk1 hk2 hs hne hre, dispatch_409]
  rfl

/-- Witness for C4 (amended): the spec's duplicate scenario, a mocked 409
with `{id: 999}`. -/
theorem createContact_409_duplicate_success_witness :
    (createContact (.str "test-api-key") ⟨.str "duplicate@example.com", .undef, .undef, .undef⟩
        (.response 409 (.ok (.jobj (.num 999))))).result =
      .ok (.success (if jsTruthy (.num 999) then JSVal.num 999 else .null)
            (jsTrim "duplicate@example.com") (some true)) :=
  createContact_409_duplicate_success (.str "test-api-key")
    ⟨.str "duplicate@example.com", .undef, .undef, .undef⟩ "duplicate@example.com" (.num 999)
    (by decide) (by decide) rfl (by decide) (by decide)

/-- C5: Exact status-to-message table.  With all preconditions passing, a
non-2xx, non-409 response whose body parses yields a `Failure` whose message
is given by the spec's table, with `"API error: N"` for unmapped statuses.
(The body must parse because the source awaits `response.json()` before
examining the status; the unparseable case is settled under C10.) -/
theorem createContact_status_message_table (k : JSVal) (sub : Submission) (s : String)
    (status : Nat) (rd : ResponseData)
    (hk1 : keyIsEmptyStr k = false) (hk2 : jsTruthy k = true)
    (hs : sub.email = .str s) (hne : s ≠ "") (hre : emailRegexTest (jsTrim s) = true)
    (hn2xx : ¬ (200 ≤ status ∧ status ≤ 299)) (hn409 : status ≠ 409) :
    (createContact k sub (.response status (.ok rd))).result =
      .ok (.failure (
        if status = 400 then "Bad request - validation error"
        else if status = 401 then "Invalid API key"
        else if status = 403 then "Insufficient API key permissions"
        else if status = 429 then "Rate limit exceeded"
        else if status = 500 then "Brevo server error"
        else if status = 503 then "Brevo service unavailable"
        else "API error: " ++ toString status)) := by
  rw [createContact_valid_eq k sub _ s hk1 hk2 hs hne hre,
      dispatch_status _ status rd (respOk_false hn2xx) hn409]
  simp only [← statusMessage_eq]

/-- Witness for C5: a mocked 401 with body `{}` yields `"Invalid API key"`. -/
theorem createContact_status_message_table_witness :
    (createContact (.str "test-api-key") ⟨.str "test@example.com", .undef, .undef, .undef⟩
        (.response 401 (.ok (.jobj .undef)))).result = .ok (.failure "Invalid API key") :=
  (createContact_status_message_table (.str "test-api-key")
      ⟨.str "test@example.com", .undef, .undef, .undef⟩ "test@example.com" 401 (.jobj .undef)
      (by decide) (by decide) rfl (by decide) (by decide) (by decide) (by decide)).trans
    (by decide)

/-- C6: Exception-to-Failure mapping.  With all preconditions passing, when
the fetch rejects or the body parse rejects with error `e`, the `catch`
clause classifies `e` exactly as the source does: an abort signal (name
`AbortError`) maps to `"Request timeout"`; otherwise a `TypeError` whose
message mentions `fetch` (the network-level failure shape) maps to
`"Network error"`; otherwise a `SyntaxError` (unparseable JSON body) maps to
`"Invalid API response format"`; any other exception maps to
`"Unexpected error occurred"`. -/
theorem createContact_exception_mapping (k : JSVal) (sub : Submission) (s : String)
    (e : JsError) (outcome : FetchOutcome)
    (hk1 : keyIsEmptyStr k = false) (hk2 : jsTruthy k = true)
    (hs : sub.email = .str s) (hne : s ≠ "") (hre : emailRegexTest (jsTrim s) = true)
    (hout : outcome = .reject e ∨ ∃ st, outcome = .response st (.error e)) :
    ((e.name = "AbortError" →
        (createContact k sub outcome).result = .ok (.failure "Request timeout")) ∧
     (e.name ≠ "AbortError" → e.isTypeError = true → strIncludes e.message "fetch" = true →
        (createContact k sub outcome).result = .ok (.failure "Network error")) ∧
     (e.name ≠ "AbortError" → (e.isTypeError && strIncludes e.message "fetch") = false →
        e.isSyntaxError = true →
        (createContact k sub outcome).result = .ok (.failure "Invalid API response format")) ∧
     (e.name ≠ "AbortError" → (e.isTypeError && strIncludes e.message "fetch") = false →
        e.isSyntaxError = false →
        (createContact k sub outcome).result = .ok (.failure "Unexpected error occurred"))) := by
  have hres : (createContact k sub outcome).result = .ok (handleCatch e).1 := by
    rcases hout with h | ⟨st, h⟩ <;> subst h <;>
      rw [createContact_valid_eq k sub _ s hk1 hk2 hs hne hre] <;> rfl
  refine ⟨?_, ?_, ?_, ?_⟩
  · intro h1
    rw [hres]; simp [handleCatch, h1]
  · intro h1 h2 h3
    rw [hres]; simp [handleCatch, h1, h2, h3]
  · intro h1 h2 h3
    rw [hres]; simp [handleCatch, h1, h2, h3]
  · intro h1 h2 h3
    rw [hres]; simp [handleCatch, h1, h2, h3]

/-- Witness for C6: an `AbortError` rejection resolves to `"Request timeout"`. -/
theorem createContact_exception_mapping_witness :
    (createContact (.str "test-api-key") ⟨.str "test@example.com", .undef, .undef, .undef⟩
        (.reject ⟨"AbortError", "The operation was aborted", false, false⟩)).result =
      .ok (.failure "Request timeout") :=
  (createContact_exception_mapping (.str "test-api-key")
      ⟨.str "test@example.com", .undef, .undef, .undef⟩ "test@example.com"
      ⟨"AbortError", "The operation was aborted", false, false⟩
      (.reject ⟨"AbortError", "The operation was aborted", false, false⟩)
      (by decide) (by decide) rfl (by decide) (by decide) (Or.inl rfl)).1 rfl

theorem tryBlock_ok_ne_keyEmpty (body : RequestBody) (outcome : FetchOutcome)
    (rl : AdapterResult × List String) (h : tryBlock body outcome = .ok rl) :
    rl.1 ≠ AdapterResult.failure "Brevo API key cannot be empty" := by
  unfold tryBlock at h
  repeat' split at h
  all_goals cases h
  all_goals intro hq
  all_goals first
    | (injection hq with hm; exact statusMessage_ne_keyEmpty _ hm)
    | injection hq

theorem dispatch_result_ne_keyEmpty (req : Request) (outcome : FetchOutcome) :
    (dispatch req outcome).result ≠ Except.ok (.failure "Brevo API key cannot be empty") := by
  unfold dispatch
  rcases houtc : tryBlock req.body outcome with e | rl
  · intro h
    apply handleCatch_ne_keyEmpty e
    injection h
  · intro h
    apply tryBlock_ok_ne_keyEmpty req.body outcome rl houtc
    injection h

/-- With the empty-string check already passed, the short-circuit messages a
run can produce never include the empty-credential message. -/
theorem createContact_noCall_msgs (k : JSVal) (sub : Submission) (outcome : FetchOutcome)
    (hk : keyIsEmptyStr k = false) :
    (∃ msg, createContact k sub outcome = noCall msg ∧
        msg ≠ "Brevo API key cannot be empty") ∨
    (∃ req, createContact k sub outcome = dispatch req outcome) := by
  unfold createContact
  repeat' split
  all_goals first
    | (exfalso; simp_all; done)
    | exact Or.inl ⟨_, rfl, by decide⟩
    | exact Or.inr ⟨_, rfl⟩

/-- C7 counterexample: the credential `" "` (one space) is a string that is
not exactly the empty string, yet `createContact` returns the empty-specific
message, because line 26 of the source trims the credential before comparing
(`this.apiKey.trim() === ''`).  So the emptiness check does apply trimming,
against the claim's "with no trimming applied in this emptiness check". -/
theorem createContact_untrimmed_key_counterexample :
    (createContact (.str " ") ⟨.str "test@example.com", .undef, .undef, .undef⟩
        (.response 200 (.ok (.jobj (.num 1))))).result =
        .ok (.failure "Brevo API key cannot be empty") ∧
      (" " : String) ≠ "" :=
  ⟨by decide, by decide⟩

/-- C7 (amended): an absent credential (`undefined` or `null`) yields the
absent-specific message naming `VITE_BREVO_API_KEY`; a string credential
whose trimmed value is empty (the check trims) yields
`"Brevo API key cannot be empty"`; in both cases no network call is
attempted; and the empty-specific message is produced only for string
credentials. -/
theorem createContact_credential_gate (sub : Submission) (outcome : FetchOutcome) :
    (∀ k : JSVal, k = .undef ∨ k = .null →
      (createContact k sub outcome).result =
          .ok (.failure
            "Brevo API key is not configured. Set VITE_BREVO_API_KEY environment variable.") ∧
        (createContact k sub outcome).request = none) ∧
    (∀ t : String, jsTrim t = "" →
      (createContact (.str t) sub outcome).result =
          .ok (.failure "Brevo API key cannot be empty") ∧
        (createContact (.str t) sub outcome).request = none) ∧
    (∀ k : JSVal,
      (createContact k sub outcome).result = .ok (.failure "Brevo API key cannot be empty") →
      ∃ t : String, k = .str t) := by
  refine ⟨?_, ?_, ?_⟩
  · intro k hk
    rcases hk with rfl | rfl <;> exact noCall_fields _ _ rfl
  · intro t ht
    apply noCall_fields
    unfold createContact
    simp [keyIsEmptyStr, ht]
  · intro k h
    cases k with
    | str t => exact ⟨t, rfl⟩
    | undef =>
      exfalso
      rcases createContact_noCall_msgs .undef sub outcome rfl with ⟨msg, hcc, hmsg⟩ | ⟨req, hcc⟩
      · rw [hcc] at h; apply hmsg; injection h with h2; injection h2
      · rw [hcc] at h; exact dispatch_result_ne_keyEmpty req outcome h
    | null =>
      exfalso
      rcases createContact_noCall_msgs .null sub outcome rfl with ⟨msg, hcc, hmsg⟩ | ⟨req, hcc⟩
      · rw [hcc] at h; apply hmsg; injection h with h2; injection h2
      · rw [hcc] at h; exact dispatch_result_ne_keyEmpty req outcome h
    | boolean b =>
      exfalso
      rcases createContact_noCall_msgs (.boolean b) sub outcome rfl with
        ⟨msg, hcc, hmsg⟩ | ⟨req, hcc⟩
      · rw [hcc] at h; apply hmsg; injection h with h2; injection h2
      · rw [hcc] at h; exact dispatch_result_ne_keyEmpty req outcome h
    | num n =>
      exfalso
      rcases createContact_noCall_msgs (.num n) sub outcome rfl with
        ⟨msg, hcc, hmsg⟩ | ⟨req, hcc⟩
      · rw [hcc] at h; apply hmsg; injection h with h2; injection h2
      · rw [hcc] at h; exact dispatch_result_ne_keyEmpty req outcome h
    | emptyObj =>
      exfalso
      rcases createContact_noCall_msgs .emptyObj sub outcome rfl with
        ⟨msg, hcc, hmsg⟩ | ⟨req, hcc⟩
      · rw [hcc] at h; apply hmsg; injection h with h2; injection h2
      · rw [hcc] at h; exact dispatch_result_ne_keyEmpty req outcome h
    | obj tg =>
      exfalso
      rcases createContact_noCall_msgs (.obj tg) sub outcome rfl with
        ⟨msg, hcc, hmsg⟩ | ⟨req, hcc⟩
      · rw [hcc] at h; apply hmsg; injection h with h2; injection h2
      · rw [hcc] at h; exact dispatch_result_ne_keyEmpty req outcome h

/-- Witness for C7 (amended): construction with `null` and a valid email
yields the absent-specific message with no network call. -/
theorem createContact_credential_gate_witness :
    (createContact .null ⟨.str "test@example.com", .undef, .undef, .undef⟩
        (.response 200 (.ok (.jobj (.num 1))))).result =
        .ok (.failure
          "Brevo API key is not configured. Set VITE_BREVO_API_KEY environment variable.") ∧
      (createContact .null ⟨.str "test@example.com", .undef, .undef, .undef⟩
        (.response 200 (.ok (.jobj (.num 1))))).request = none :=
  (createContact_credential_gate ⟨.str "test@example.com", .undef, .undef, .undef⟩
      (.response 200 (.ok (.jobj (.num 1))))).1 .null (Or.inr rfl)

theorem truthyOpt_ne_emptyStr (v : JSVal) :
    (if jsTruthy v then some v else none) ≠ some (.str "") := by
  cases hf : jsTruthy v
  · simp
  · simp only [if_true]
    intro hv
    injection hv with hv2
    rw [hv2] at hf
    exact absurd hf (by decide)

theorem truthyOpt_ne_null (v : JSVal) :
    (if jsTruthy v then some v else none) ≠ some .null := by
  cases hf : jsTruthy v
  · simp
  · simp only [if_true]
    intro hv
    injection hv with hv2
    rw [hv2] at hf
    exact absurd hf (by decide)

theorem jsTruthy_str_of_ne {t : String} (h : t ≠ "") : jsTruthy (.str t) = true := by
  simp only [jsTruthy, bne_iff_ne, ne_eq, decide_eq_true_eq]
  exact h

/-- C8: Outbound request shape.  With all preconditions passing, the one POST
is issued: its request carries the credential and a JSON content-type in the
headers, and a body that contains the trimmed email, contains `firstName` /
`lastName` exactly when those fields were provided (as nonempty strings) and
never as null or empty, and always contains `attributes`, defaulting to the
empty mapping when absent. -/
theorem createContact_request_shape (k : JSVal) (sub : Submission) (s : String)
    (outcome : FetchOutcome)
    (hk1 : keyIsEmptyStr k = false) (hk2 : jsTruthy k = true)
    (hs : sub.email = .str s) (hne : s ≠ "") (hre : emailRegexTest (jsTrim s) = true) :
    ∃ req : Request,
      (createContact k sub outcome).request = some req ∧
      req.method = "POST" ∧
      req.url = "https://api.brevo.com/v3" ++ "/contacts" ∧
      req.headers = [("api-key", k), ("content-type", JSVal.str "application/json")] ∧
      req.body.email = jsTrim s ∧
      (sub.firstName = .undef → req.body.firstName = none) ∧
      (∀ t : String, sub.firstName = .str t → t ≠ "" → req.body.firstName = some (.str t)) ∧
      req.body.firstName ≠ some (.str "") ∧ req.body.firstName ≠ some .null ∧
      (sub.lastName = .undef → req.body.lastName = none) ∧
      (∀ t : String, sub.lastName = .str t → t ≠ "" → req.body.lastName = some (.str t)) ∧
      req.body.lastName ≠ some (.str "") ∧ req.body.lastName ≠ some .null ∧
      (sub.attributes = .undef → req.body.attributes = .emptyObj) ∧
      (sub.attributes ≠ .undef → req.body.attributes = sub.attributes) := by
  refine ⟨mkReq k sub (jsTrim s), ?_, rfl, rfl, rfl, rfl, ?_, ?_,
    truthyOpt_ne_emptyStr sub.firstName, truthyOpt_ne_null sub.firstName, ?_, ?_,
    truthyOpt_ne_emptyStr sub.lastName, truthyOpt_ne_null sub.lastName, ?_, ?_⟩
  · rw [createContact_valid_eq k sub _ s hk1 hk2 hs hne hre]
    exact dispatch_request _ _
  · intro h; simp [mkReq, mkBody, h, jsTruthy]
  · intro t ht hnet; simp [mkReq, mkBody, ht, jsTruthy_str_of_ne hnet]
  · intro h; simp [mkReq, mkBody, h, jsTruthy]
  · intro t ht hnet; simp [mkReq, mkBody, ht, jsTruthy_str_of_ne hnet]
  · intro h; simp [mkReq, mkBody, h]
  · intro h; simp [mkReq, mkBody, h]

/-- Witness for C8: the test scenario — key `"my-api-key"`, email
`contact@example.com`, names `Jane` / `Smith`, an attributes object, and a
mocked 200 `{id: 789}`. -/
theorem createContact_request_shape_witness :
    ∃ req : Request,
      (createContact (.str "my-api-key")
          ⟨.str "contact@example.com", .str "Jane", .str "Smith", .obj 1⟩
          (.response 200 (.ok (.jobj (.num 789))))).request = some req ∧
      req.method = "POST" ∧
      req.url = "https://api.brevo.com/v3" ++ "/contacts" ∧
      req.headers = [("api-key", .str "my-api-key"),
                     ("content-type", JSVal.str "application/json")] ∧
      req.body.email = jsTrim "contact@example.com" ∧
      ((JSVal.str "Jane") = .undef → req.body.firstName = none) ∧
      (∀ t : String, (JSVal.str "Jane") = .str t → t ≠ "" →
        req.body.firstName = some (.str t)) ∧
      req.body.firstName ≠ some (.str "") ∧ req.body.firstName ≠ some .null ∧
      ((JSVal.str "Smith") = .undef → req.body.lastName = none) ∧
      (∀ t : String, (JSVal.str "Smith") = .str t → t ≠ "" →
        req.body.lastName = some (.str t)) ∧
      req.body.lastName ≠ some (.str "") ∧ req.body.lastName ≠ some .null ∧
      ((JSVal.obj 1) = .undef → req.body.attributes = .emptyObj) ∧
      ((JSVal.obj 1) ≠ .undef → req.body.attributes = .obj 1) :=
  createContact_request_shape (.str "my-api-key")
    ⟨.str "contact@example.com", .str "Jane", .str "Smith", .obj 1⟩ "contact@example.com"
    (.response 200 (.ok (.jobj (.num 789)))) (by decide) (by decide) rfl (by decide) (by decide)

theorem keyStr_not_empty {t : String} (h : jsTrim t ≠ "") : keyIsEmptyStr (.str t) = false := by
  simp only [keyIsEmptyStr, beq_eq_false_iff_ne, ne_eq]
  exact h

theorem keyStr_truthy {t : String} (h : jsTrim t ≠ "") : jsTruthy (.str t) = true :=
  jsTruthy_str_of_ne (fun hh => h (by rw [hh]; rfl))

/-- C9: Credential redaction.  The diagnostic output is identical across any
two runs that differ only in the (non-absent, non-empty) credential; runs
that fail a local validation check (no network call) log nothing; successful
runs (2xx or 409 with an object body) log nothing, so logging happens only on
protocol, transport, parsing and catch-all error paths; and in the spec's
concrete scenario — credential `secret-api-key-12345`, forced 401 — no
logged line contains the literal credential. -/
theorem createContact_credential_redaction (sub : Submission) (outcome : FetchOutcome) :
    (∀ k1 k2 : String, jsTrim k1 ≠ "" → jsTrim k2 ≠ "" →
      (createContact (.str k1) sub outcome).logs =
        (createContact (.str k2) sub outcome).logs) ∧
    (∀ k : JSVal, (createContact k sub outcome).request = none →
      (createContact k sub outcome).logs = []) ∧
    (∀ (k : JSVal) (st : Nat) (idv : JSVal), (respOk st = true ∨ st = 409) →
      (createContact k sub (.response st (.ok (.jobj idv)))).logs = []) ∧
    ((createContact (.str "secret-api-key-12345")
        ⟨.str "test@example.com", .undef, .undef, .undef⟩
        (.response 401 (.ok (.jobj .undef)))).logs = ["Brevo API error: Invalid API key"] ∧
      ∀ line ∈ (createContact (.str "secret-api-key-12345")
            ⟨.str "test@example.com", .undef, .undef, .undef⟩
            (.response 401 (.ok (.jobj .undef)))).logs,
        strIncludes line "secret-api-key-12345" = false) := by
  refine ⟨?_, ?_, ?_, ?_, ?_⟩
  · intro k1 k2 h1 h2
    cases he : sub.email with
    | str s =>
      by_cases hs0 : s = ""
      · subst hs0
        unfold createContact
        rw [he]
        simp [keyStr_not_empty h1, keyStr_not_empty h2, keyStr_truthy h1, keyStr_truthy h2]
      · by_cases hr : emailRegexTest (jsTrim s) = true
        · rw [createContact_valid_eq (.str k1) sub outcome s (keyStr_not_empty h1)
                (keyStr_truthy h1) he hs0 hr,
              createContact_valid_eq (.str k2) sub outcome s (keyStr_not_empty h2)
                (keyStr_truthy h2) he hs0 hr]
          exact dispatch_logs_req_independent (mkReq (.str k1) sub (jsTrim s))
            (mkReq (.str k2) sub (jsTrim s)) rfl outcome
        · have hrf : emailRegexTest (jsTrim s) = false := by
            simpa using hr
          unfold createContact
          rw [he]
          simp [keyStr_not_empty h1, keyStr_not_empty h2, keyStr_truthy h1, keyStr_truthy h2,
            hs0, hrf]
    | undef =>
      unfold createContact
      rw [he]
      simp [keyStr_not_empty h1, keyStr_not_empty h2, keyStr_truthy h1, keyStr_truthy h2]
    | null =>
      unfold createContact
      rw [he]
      simp [keyStr_not_empty h1, keyStr_not_empty h2, keyStr_truthy h1, keyStr_truthy h2]
    | boolean b =>
      unfold createContact
      rw [he]
      simp [keyStr_not_empty h1, keyStr_not_empty h2, keyStr_truthy h1, keyStr_truthy h2]
    | num n =>
      unfold createContact
      rw [he]
      simp [keyStr_not_empty h1, keyStr_not_empty h2, keyStr_truthy h1, keyStr_truthy h2]
    | emptyObj =>
      unfold createContact
      rw [he]
      simp [keyStr_not_empty h1, keyStr_not_empty h2, keyStr_truthy h1, keyStr_truthy h2]
    | obj tg =>
      unfold createContact
      rw [he]
      simp [keyStr_not_empty h1, keyStr_not_empty h2, keyStr_truthy h1, keyStr_truthy h2]
  · intro k hreq
    rcases createContact_cases k sub outcome with ⟨msg, hcc⟩ | ⟨req, hcc⟩
    · rw [hcc]; rfl
    · exfalso
      rw [hcc, dispatch_request] at hreq
      cases hreq
  · intro k st idv hst
    rcases createContact_cases k sub (.response st (.ok (.jobj idv))) with
      ⟨msg, hcc⟩ | ⟨req, hcc⟩
    · rw [hcc]; rfl
    · rw [hcc]
      rcases hst with hok | h409
      · rw [dispatch_2xx req st idv hok]
      · subst h409
        rw [dispatch_409]
  · decide
  · intro line hline
    have hlogs : (createContact (.str "secret-api-key-12345")
        ⟨.str "test@example.com", .undef, .undef, .undef⟩
        (.response 401 (.ok (.jobj .undef)))).logs =
          ["Brevo API error: Invalid API key"] := by decide
    rw [hlogs] at hline
    simp only [List.mem_singleton] at hline
    rw [hline]
    decide

/-- Witness for C9: two runs with different well-formed credentials and the
same forced 401 produce identical diagnostic output. -/
theorem createContact_credential_redaction_witness :
    (createContact (.str "key-one") ⟨.str "test@example.com", .undef, .undef, .undef⟩
        (.response 401 (.ok (.jobj .undef)))).logs =
      (createContact (.str "key-two") ⟨.str "test@example.com", .undef, .undef, .undef⟩
        (.response 401 (.ok (.jobj .undef)))).logs :=
  (createContact_credential_redaction ⟨.str "test@example.com", .undef, .undef, .undef⟩
      (.response 401 (.ok (.jobj .undef)))).1 "key-one" "key-two" (by decide) (by decide)

/-- C10: JSON parsing precedes status interpretation.  The source awaits
`response.json()` before looking at `response.status`, so for every status —
including 409 and the six mapped error statuses — a response whose body does
not parse (a `SyntaxError` rejection of the parse) resolves to
`Failure "Invalid API response format"`, not the status-mapped result. -/
theorem createContact_json_parse_precedes_status (k : JSVal) (sub : Submission) (s : String)
    (e : JsError) (hk1 : keyIsEmptyStr k = false) (hk2 : jsTruthy k = true)
    (hs : sub.email = .str s) (hne : s ≠ "") (hre : emailRegexTest (jsTrim s) = true)
    (hn : e.name ≠ "AbortError") (ht : e.isTypeError = false) (hsx : e.isSyntaxError = true) :
    ∀ status : Nat,
      (createContact k sub (.response status (.error e))).result =
        .ok (.failure "Invalid API response format") := by
  intro status
  rw [createContact_valid_eq k sub _ s hk1 hk2 hs hne hre, dispatch_badjson]
  simp [handleCatch, hn, ht, hsx]

/-- Witness for C10: a `SyntaxError` body-parse rejection on a 409 response
yields the parse-error message rather than the duplicate handling. -/
theorem createContact_json_parse_precedes_status_witness :
    (createContact (.str "test-api-key") ⟨.str "test@example.com", .undef, .undef, .undef⟩
        (.response 409 (.error ⟨"SyntaxError", "Unexpected token", false, true⟩))).result =
      .ok (.failure "Invalid API response format") :=
  createContact_json_parse_precedes_status (.str "test-api-key")
    ⟨.str "test@example.com", .undef, .undef, .undef⟩ "test@example.com"
    ⟨"SyntaxError", "Unexpected token", false, true⟩
    (by decide) (by decide) rfl (by decide) (by decide) (by decide) rfl rfl 409

end Brevo
